import Mathlib

/-!
Verification development for the mantle-rwa repository.

Shallow embedding of the three core components named by the specification:

* `InvoiceNFT.sol` (the instrument registry): invoice lifecycle state machine
  (`mintInvoice`, `verifyInvoice`, `markAsFunded`, `recordPayment`,
  `markAsDefaulted`).
* `TrancheVault.sol` (the fund ledger): ERC-4626 share accounting
  (OpenZeppelin v5 virtual-offset formulas), `deposit`, `addInvoice`,
  `removeInvoice`, `distributeYield`, `getSharePrice`.
* `KYCGate.sol` (compliance gate): `isVerified`, `setKYCRequired`.
* The oracle monitor loop structure of
  `oracle-service` (`verifyPendingInvoices`, `checkPaymentStatuses`).

Solidity `uint256` values are modelled as `Nat`; the one input-dependent
checked-arithmetic overflow (the product `faceValue * (10000 - rate)` in
`mintInvoice`) and the checked subtraction in `markAsDefaulted` are guarded
explicitly with the bound `2 ^ 256`.  The global statistics counters
(`totalValueFunded`, `totalValuePaid`, `totalDefaulted`, vault counters) are
kept as unbounded naturals: their `uint256` wrap is unreachable without
astronomical cumulative volume and no claim depends on it.  Addresses and
`bytes32` values are modelled as `Nat` (`0` plays the role of `address(0)`
and `bytes32(0)`).  Reverts are modelled as `Except.error` carrying the
source revert string; a revert leaves the state unchanged because the
operations are pure functions returning the new state only on success.
Access control (`onlyRole`, `onlyOwner`) is orthogonal to the state machine
and is not modelled; `_ownerOf(tokenId) != address(0)` is modelled as the
token being present in the `invoices` map (tokens are never burned).
-/

namespace MantleRWA

/-- InvoiceNFT.InvoiceStatus enum, in source declaration order. -/
inductive InvoiceStatus
  | PENDING
  | VERIFIED
  | FUNDED
  | PAID
  | DEFAULTED
  | PARTIAL_PAID
deriving DecidableEq, Repr

/-- InvoiceNFT.Invoice struct. -/
structure Invoice where
  tokenId : Nat
  faceValue : Nat
  discountedValue : Nat
  maturityDate : Nat
  debtor : Nat
  invoiceHash : Nat
  status : InvoiceStatus
  paidAmount : Nat
  issuedAt : Nat
  issuer : Nat
  debtorName : String
  discountRate : Nat
deriving DecidableEq, Repr

/-- Storage of the InvoiceNFT contract: the invoice mapping, the used-hash
set, the id counter and the statistics counters. -/
structure RegistryState where
  invoices : Nat → Option Invoice
  usedInvoiceHashes : Nat → Bool
  nextTokenId : Nat
  totalInvoicesFunded : Nat
  totalValueFunded : Nat
  totalValuePaid : Nat
  totalDefaulted : Nat

/-- State of a freshly deployed InvoiceNFT contract. -/
def initialRegistry : RegistryState where
  invoices := fun _ => none
  usedInvoiceHashes := fun _ => false
  nextTokenId := 1
  totalInvoicesFunded := 0
  totalValueFunded := 0
  totalValuePaid := 0
  totalDefaulted := 0

/-- InvoiceNFT.mintInvoice.  The requires appear in source order; on success
the state gains the new invoice in `PENDING` status, the evidence hash is
marked used, and the id counter advances.  The guard
`faceValue * (10000 - discountRate) < 2 ^ 256` models the Solidity 0.8
checked multiplication. -/
def mintInvoice (now sender faceValue maturityDate debtor invoiceHash : Nat)
    (debtorName : String) (discountRate : Nat) (s : RegistryState) :
    Except String (RegistryState × Nat) :=
  if now < maturityDate then
    if 0 < faceValue then
      if debtor ≠ 0 then
        if invoiceHash ≠ 0 then
          if s.usedInvoiceHashes invoiceHash = false then
            if 0 < discountRate ∧ discountRate ≤ 5000 then
              if faceValue * (10000 - discountRate) < 2 ^ 256 then
                let tokenId := s.nextTokenId
                let discountedValue := faceValue * (10000 - discountRate) / 10000
                let inv : Invoice :=
                  { tokenId := tokenId
                    faceValue := faceValue
                    discountedValue := discountedValue
                    maturityDate := maturityDate
                    debtor := debtor
                    invoiceHash := invoiceHash
                    status := InvoiceStatus.PENDING
                    paidAmount := 0
                    issuedAt := now
                    issuer := sender
                    debtorName := debtorName
                    discountRate := discountRate }
                Except.ok
                  ({ s with
                      invoices := fun k => if k = tokenId then some inv else s.invoices k
                      usedInvoiceHashes := fun x =>
                        if x = invoiceHash then true else s.usedInvoiceHashes x
                      nextTokenId := s.nextTokenId + 1 }, tokenId)
              else Except.error "arithmetic overflow"
            else Except.error "Discount rate must be 0-50%"
          else Except.error "Invoice already exists"
        else Except.error "Invalid invoice hash"
      else Except.error "Invalid debtor address"
    else Except.error "Face value must be positive"
  else Except.error "Maturity must be in future"

/-- InvoiceNFT.verifyInvoice: PENDING and unmatured becomes VERIFIED. -/
def verifyInvoice (now tokenId : Nat) (s : RegistryState) :
    Except String RegistryState :=
  match s.invoices tokenId with
  | none => Except.error "Invoice does not exist"
  | some invoice =>
    if invoice.status = InvoiceStatus.PENDING then
      if now < invoice.maturityDate then
        Except.ok
          { s with
              invoices := fun k =>
                if k = tokenId then some { invoice with status := InvoiceStatus.VERIFIED }
                else s.invoices k }
      else Except.error "Invoice already matured"
    else Except.error "Invoice not in PENDING status"

/-- InvoiceNFT.markAsFunded: VERIFIED becomes FUNDED and the fund-wide
funded totals advance. -/
def markAsFunded (tokenId : Nat) (s : RegistryState) :
    Except String RegistryState :=
  match s.invoices tokenId with
  | none => Except.error "Invoice does not exist"
  | some invoice =>
    if invoice.status = InvoiceStatus.VERIFIED then
      Except.ok
        { s with
            invoices := fun k =>
              if k = tokenId then some { invoice with status := InvoiceStatus.FUNDED }
              else s.invoices k
            totalInvoicesFunded := s.totalInvoicesFunded + 1
            totalValueFunded := s.totalValueFunded + invoice.faceValue }
    else Except.error "Invoice not verified"

/-- InvoiceNFT.recordPayment: requires a positive amount, a FUNDED or
PARTIAL_PAID status and `paidAmount + amount <= faceValue`; the new status
is PAID exactly when the updated paid amount reaches the face value. -/
def recordPayment (tokenId amount : Nat) (s : RegistryState) :
    Except String RegistryState :=
  match s.invoices tokenId with
  | none => Except.error "Invoice does not exist"
  | some invoice =>
    if 0 < amount then
      if invoice.status = InvoiceStatus.FUNDED ∨ invoice.status = InvoiceStatus.PARTIAL_PAID then
        if invoice.paidAmount + amount ≤ invoice.faceValue then
          Except.ok
            { s with
                invoices := fun k =>
                  if k = tokenId then
                    some { invoice with
                            paidAmount := invoice.paidAmount + amount
                            status :=
                              if invoice.faceValue ≤ invoice.paidAmount + amount then
                                InvoiceStatus.PAID
                              else InvoiceStatus.PARTIAL_PAID }
                  else s.invoices k
                totalValuePaid := s.totalValuePaid + amount }
        else Except.error "Payment exceeds face value"
      else Except.error "Invoice not in valid state for payment"
    else Except.error "Payment amount must be positive"

/-- InvoiceNFT.markAsDefaulted: requires `now > maturityDate` and a status
that is neither PAID nor DEFAULTED; the unpaid remainder is added to
`totalDefaulted`.  The final guard models the Solidity 0.8 checked
subtraction `faceValue - paidAmount`. -/
def markAsDefaulted (now tokenId : Nat) (s : RegistryState) :
    Except String RegistryState :=
  match s.invoices tokenId with
  | none => Except.error "Invoice does not exist"
  | some invoice =>
    if invoice.maturityDate < now then
      if invoice.status = InvoiceStatus.PAID then Except.error "Invoice already paid"
      else if invoice.status = InvoiceStatus.DEFAULTED then
        Except.error "Already marked as defaulted"
      else if invoice.paidAmount ≤ invoice.faceValue then
        Except.ok
          { s with
              invoices := fun k =>
                if k = tokenId then some { invoice with status := InvoiceStatus.DEFAULTED }
                else s.invoices k
              totalDefaulted := s.totalDefaulted + (invoice.faceValue - invoice.paidAmount) }
      else Except.error "arithmetic underflow"
    else Except.error "Invoice not yet matured"

/-- One successful mutating call on the registry, at an arbitrary block
timestamp and with arbitrary arguments.  The timestamps of successive steps
are unconstrained, which only enlarges the set of reachable states. -/
inductive RegStep : RegistryState → RegistryState → Prop
  | mint (now sender fv md debtor h : Nat) (dn : String) (r : Nat)
      (s s' : RegistryState) (tid : Nat)
      (hok : mintInvoice now sender fv md debtor h dn r s = Except.ok (s', tid)) :
      RegStep s s'
  | verify (now tid : Nat) (s s' : RegistryState)
      (hok : verifyInvoice now tid s = Except.ok s') : RegStep s s'
  | fund (tid : Nat) (s s' : RegistryState)
      (hok : markAsFunded tid s = Except.ok s') : RegStep s s'
  | pay (tid amount : Nat) (s s' : RegistryState)
      (hok : recordPayment tid amount s = Except.ok s') : RegStep s s'
  | defaultStep (now tid : Nat) (s s' : RegistryState)
      (hok : markAsDefaulted now tid s = Except.ok s') : RegStep s s'

/-- Registry states reachable from a freshly deployed contract. -/
def Reachable (s : RegistryState) : Prop :=
  Relation.ReflTransGen RegStep initialRegistry s

/-! ### Success-shape lemmas for the registry operations -/

/-- Successful mint: the guards held and the new state is the recorded
update. -/
lemma mintInvoice_ok_shape {now sender fv md debtor h : Nat} {dn : String} {r : Nat}
    {s s' : RegistryState} {tid : Nat}
    (hok : mintInvoice now sender fv md debtor h dn r s = Except.ok (s', tid)) :
    now < md ∧ 0 < fv ∧ debtor ≠ 0 ∧ h ≠ 0 ∧ s.usedInvoiceHashes h = false ∧
      (0 < r ∧ r ≤ 5000) ∧ fv * (10000 - r) < 2 ^ 256 ∧ tid = s.nextTokenId ∧
      s' = { s with
              invoices := fun k =>
                if k = s.nextTokenId then
                  some { tokenId := s.nextTokenId
                         faceValue := fv
                         discountedValue := fv * (10000 - r) / 10000
                         maturityDate := md
                         debtor := debtor
                         invoiceHash := h
                         status := InvoiceStatus.PENDING
                         paidAmount := 0
                         issuedAt := now
                         issuer := sender
                         debtorName := dn
                         discountRate := r }
                else s.invoices k
              usedInvoiceHashes := fun x => if x = h then true else s.usedInvoiceHashes x
              nextTokenId := s.nextTokenId + 1 } := by
  unfold mintInvoice at hok
  split at hok
  · split at hok
    · split at hok
      · split at hok
        · split at hok
          · split at hok
            · split at hok
              · obtain ⟨h1, h2⟩ := Prod.mk.injEq .. ▸ (Except.ok.injEq .. ▸ hok)
                refine ⟨by assumption, by assumption, by assumption, by assumption,
                  by assumption, by assumption, by assumption, h2.symm, h1.symm⟩
              · exact Except.noConfusion hok
            · exact Except.noConfusion hok
          · exact Except.noConfusion hok
        · exact Except.noConfusion hok
      · exact Except.noConfusion hok
    · exact Except.noConfusion hok
  · exact Except.noConfusion hok

/-- Successful verification: the invoice existed in PENDING status, was
unmatured, and only its status changed, to VERIFIED. -/
lemma verifyInvoice_ok_shape {now tid : Nat} {s s' : RegistryState}
    (hok : verifyInvoice now tid s = Except.ok s') :
    ∃ invoice, s.invoices tid = some invoice ∧
      invoice.status = InvoiceStatus.PENDING ∧ now < invoice.maturityDate ∧
      s' = { s with
              invoices := fun k =>
                if k = tid then some { invoice with status := InvoiceStatus.VERIFIED }
                else s.invoices k } := by
  unfold verifyInvoice at hok
  split at hok
  · exact Except.noConfusion hok
  · rename_i invoice hinv
    split at hok
    · split at hok
      · exact ⟨invoice, hinv, by assumption, by assumption,
          (Except.ok.injEq .. ▸ hok).symm⟩
      · exact Except.noConfusion hok
    · exact Except.noConfusion hok

/-- Successful funded-marking: the invoice existed in VERIFIED status and
only its status (and the funded totals) changed. -/
lemma markAsFunded_ok_shape {tid : Nat} {s s' : RegistryState}
    (hok : markAsFunded tid s = Except.ok s') :
    ∃ invoice, s.invoices tid = some invoice ∧
      invoice.status = InvoiceStatus.VERIFIED ∧
      s' = { s with
              invoices := fun k =>
                if k = tid then some { invoice with status := InvoiceStatus.FUNDED }
                else s.invoices k
              totalInvoicesFunded := s.totalInvoicesFunded + 1
              totalValueFunded := s.totalValueFunded + invoice.faceValue } := by
  unfold markAsFunded at hok
  split at hok
  · exact Except.noConfusion hok
  · rename_i invoice hinv
    split at hok
    · exact ⟨invoice, hinv, by assumption, (Except.ok.injEq .. ▸ hok).symm⟩
    · exact Except.noConfusion hok

/-- Successful payment: the guards held and the paid amount and status were
updated as recorded. -/
lemma recordPayment_ok_shape {tid amount : Nat} {s s' : RegistryState}
    (hok : recordPayment tid amount s = Except.ok s') :
    ∃ invoice, s.invoices tid = some invoice ∧ 0 < amount ∧
      (invoice.status = InvoiceStatus.FUNDED ∨ invoice.status = InvoiceStatus.PARTIAL_PAID) ∧
      invoice.paidAmount + amount ≤ invoice.faceValue ∧
      s' = { s with
              invoices := fun k =>
                if k = tid then
                  some { invoice with
                          paidAmount := invoice.paidAmount + amount
                          status :=
                            if invoice.faceValue ≤ invoice.paidAmount + amount then
                              InvoiceStatus.PAID
                            else InvoiceStatus.PARTIAL_PAID }
                else s.invoices k
              totalValuePaid := s.totalValuePaid + amount } := by
  unfold recordPayment at hok
  split at hok
  · exact Except.noConfusion hok
  · rename_i invoice hinv
    split at hok
    · split at hok
      · split at hok
        · exact ⟨invoice, hinv, by assumption, by assumption, by assumption,
            (Except.ok.injEq .. ▸ hok).symm⟩
        · exact Except.noConfusion hok
      · exact Except.noConfusion hok
    · exact Except.noConfusion hok

/-- Successful defaulting: the invoice existed, was matured, was neither
PAID nor DEFAULTED, and only its status (and the default total) changed. -/
lemma markAsDefaulted_ok_shape {now tid : Nat} {s s' : RegistryState}
    (hok : markAsDefaulted now tid s = Except.ok s') :
    ∃ invoice, s.invoices tid = some invoice ∧ invoice.maturityDate < now ∧
      invoice.status ≠ InvoiceStatus.PAID ∧ invoice.status ≠ InvoiceStatus.DEFAULTED ∧
      invoice.paidAmount ≤ invoice.faceValue ∧
      s' = { s with
              invoices := fun k =>
                if k = tid then some { invoice with status := InvoiceStatus.DEFAULTED }
                else s.invoices k
              totalDefaulted :=
                s.totalDefaulted + (invoice.faceValue - invoice.paidAmount) } := by
  unfold markAsDefaulted at hok
  split at hok
  · exact Except.noConfusion hok
  · rename_i invoice hinv
    split at hok
    · split at hok
      · exact Except.noConfusion hok
      · split at hok
        · exact Except.noConfusion hok
        · split at hok
          · exact ⟨invoice, hinv, by assumption, by assumption, by assumption,
              by assumption, (Except.ok.injEq .. ▸ hok).symm⟩
          · exact Except.noConfusion hok
    · exact Except.noConfusion hok

/-! ### The per-invoice reachability invariant -/

/-- Invariant of every stored invoice: positive face value, paid amount
bounded by face value, and the PAID status held exactly at full payment. -/
def InvoiceInv (inv : Invoice) : Prop :=
  0 < inv.faceValue ∧ inv.paidAmount ≤ inv.faceValue ∧
    (inv.status = InvoiceStatus.PAID ↔ inv.paidAmount = inv.faceValue)

/-- Invariant of the registry: every stored invoice satisfies
`InvoiceInv`. -/
def RegInv (s : RegistryState) : Prop :=
  ∀ tid inv, s.invoices tid = some inv → InvoiceInv inv

lemma regInv_initial : RegInv initialRegistry := by
  intro tid inv h
  simp [initialRegistry] at h

/-- Updating a single key with an invariant-satisfying invoice preserves
the map invariant. -/
lemma regInv_update {m : Nat → Option Invoice}
    (hI : ∀ t i, m t = some i → InvoiceInv i) {tid : Nat} {newInv : Invoice}
    (hnew : InvoiceInv newInv) :
    ∀ t i, (fun k => if k = tid then some newInv else m k) t = some i → InvoiceInv i := by
  intro t i h
  by_cases ht : t = tid
  · simp [ht] at h
    exact h ▸ hnew
  · simp [ht] at h
    exact hI t i h

/-- Every single registry step preserves the invariant. -/
lemma regStep_preserves_regInv {s s' : RegistryState}
    (hstep : RegStep s s') (hI : RegInv s) : RegInv s' := by
  cases hstep with
  | mint now sender fv md debtor h dn r s s' tid hok =>
    obtain ⟨_, hfv, _, _, _, _, _, _, hs'⟩ := mintInvoice_ok_shape hok
    subst hs'
    refine regInv_update hI ?_
    exact ⟨hfv, Nat.zero_le _, by simp [hfv.ne]⟩
  | verify now tid s s' hok =>
    obtain ⟨invoice, hinv, hstat, _, hs'⟩ := verifyInvoice_ok_shape hok
    subst hs'
    obtain ⟨h1, h2, h3⟩ := hI tid invoice hinv
    refine regInv_update hI ?_
    refine ⟨h1, h2, ?_⟩
    constructor
    · intro hc; exact absurd hc (by simp)
    · intro hc
      exact absurd (h3.mpr hc) (by simp [hstat])
  | fund tid s s' hok =>
    obtain ⟨invoice, hinv, hstat, hs'⟩ := markAsFunded_ok_shape hok
    subst hs'
    obtain ⟨h1, h2, h3⟩ := hI tid invoice hinv
    refine regInv_update hI ?_
    refine ⟨h1, h2, ?_⟩
    constructor
    · intro hc; exact absurd hc (by simp)
    · intro hc
      exact absurd (h3.mpr hc) (by simp [hstat])
  | pay tid amount s s' hok =>
    obtain ⟨invoice, hinv, hpos, hstat, hle, hs'⟩ := recordPayment_ok_shape hok
    subst hs'
    obtain ⟨h1, _, _⟩ := hI tid invoice hinv
    refine regInv_update hI ?_
    refine ⟨h1, hle, ?_⟩
    by_cases hfull : invoice.faceValue ≤ invoice.paidAmount + amount
    · simp only [if_pos hfull]
      simpa using Nat.le_antisymm hle hfull
    · simp only [if_neg hfull]
      constructor
      · intro hc; exact absurd hc (by simp)
      · intro hc; exact absurd (Nat.le_of_eq hc.symm) hfull
  | defaultStep now tid s s' hok =>
    obtain ⟨invoice, hinv, _, hnp, _, hle, hs'⟩ := markAsDefaulted_ok_shape hok
    subst hs'
    obtain ⟨h1, h2, h3⟩ := hI tid invoice hinv
    refine regInv_update hI ?_
    refine ⟨h1, h2, ?_⟩
    constructor
    · intro hc; exact absurd hc (by simp)
    · intro hc
      exact absurd (h3.mpr hc) hnp

/-- The invariant holds in every reachable registry state. -/
lemma reachable_regInv {s : RegistryState} (hreach : Reachable s) : RegInv s := by
  induction hreach with
  | refl => exact regInv_initial
  | tail _ hstep ih => exact regStep_preserves_regInv hstep ih

/-! ### Monotonicity of the used-evidence-hash set -/

/-- No registry step ever clears a used evidence hash. -/
lemma regStep_hash_mono {s s' : RegistryState} (hstep : RegStep s s') {h : Nat}
    (hused : s.usedInvoiceHashes h = true) : s'.usedInvoiceHashes h = true := by
  cases hstep with
  | mint now sender fv md debtor h0 dn r s s' tid hok =>
    obtain ⟨_, _, _, _, _, _, _, _, hs'⟩ := mintInvoice_ok_shape hok
    subst hs'
    by_cases hh : h = h0 <;> simp [hh, hused]
  | verify now tid s s' hok =>
    obtain ⟨invoice, _, _, _, hs'⟩ := verifyInvoice_ok_shape hok
    subst hs'; exact hused
  | fund tid s s' hok =>
    obtain ⟨invoice, _, _, hs'⟩ := markAsFunded_ok_shape hok
    subst hs'; exact hused
  | pay tid amount s s' hok =>
    obtain ⟨invoice, _, _, _, _, hs'⟩ := recordPayment_ok_shape hok
    subst hs'; exact hused
  | defaultStep now tid s s' hok =>
    obtain ⟨invoice, _, _, _, _, _, hs'⟩ := markAsDefaulted_ok_shape hok
    subst hs'; exact hused

/-- Used evidence hashes stay used along any sequence of steps. -/
lemma steps_hash_mono {s s' : RegistryState}
    (hsteps : Relation.ReflTransGen RegStep s s') {h : Nat}
    (hused : s.usedInvoiceHashes h = true) : s'.usedInvoiceHashes h = true := by
  induction hsteps with
  | refl => exact hused
  | tail _ hstep ih => exact regStep_hash_mono hstep ih

/-! ### KYCGate -/

/-- KYCGate.KYCData struct.  An address with no stored record reads as the
zero struct, matching a Solidity mapping default. -/
structure KYCData where
  isVerified : Bool
  verifiedAt : Nat
  expiresAt : Nat
  countryHash : Nat
  riskScore : Nat
  kycId : String
  tier : Nat
deriving DecidableEq, Repr

/-- Storage of the KYCGate contract (the fields read by `isVerified` and
the global settings). -/
structure KYCGateState where
  kycData : Nat → KYCData
  blockedCountries : Nat → Bool
  highRiskCountries : Nat → Bool
  maxAcceptableRiskScore : Nat
  defaultExpiryDuration : Nat
  kycRequired : Bool
  totalVerifiedUsers : Nat
  totalRevokedUsers : Nat

/-- State of a freshly deployed KYCGate contract. -/
def initialGate : KYCGateState where
  kycData := fun _ =>
    { isVerified := false, verifiedAt := 0, expiresAt := 0, countryHash := 0
      riskScore := 0, kycId := "", tier := 0 }
  blockedCountries := fun _ => false
  highRiskCountries := fun _ => false
  maxAcceptableRiskScore := 70
  defaultExpiryDuration := 365 * 86400
  kycRequired := true
  totalVerifiedUsers := 0
  totalRevokedUsers := 0

/-- KYCGate.isVerified: short-circuits to true when `kycRequired` is off,
otherwise requires a live, unexpired, low-risk record. -/
def KYCGateState.isVerified (g : KYCGateState) (now user : Nat) : Bool :=
  if g.kycRequired = false then true
  else
    let data := g.kycData user
    data.isVerified && decide (now < data.expiresAt) &&
      decide (data.riskScore ≤ g.maxAcceptableRiskScore)

/-- KYCGate.setKYCRequired (admin-only operator switch). -/
def setKYCRequired (required : Bool) (g : KYCGateState) : KYCGateState :=
  { g with kycRequired := required }

/-! ### TrancheVault -/

/-- TrancheVault.InvoiceAllocation struct. -/
structure InvoiceAllocation where
  invoiceId : Nat
  faceValue : Nat
  addedAt : Nat
  isActive : Bool
deriving DecidableEq, Repr

/-- Storage of a TrancheVault contract.  `totalAssets` is the vault's
balance of the underlying ERC-20 asset (the ERC-4626 `totalAssets()`),
`totalSupply` and `balanceOf` are the share token ledger, and `decimals`
is the share-token decimals (asset decimals plus the zero
`_decimalsOffset` of OpenZeppelin v5). -/
structure VaultState where
  totalAssets : Nat
  totalSupply : Nat
  balanceOf : Nat → Nat
  decimals : Nat
  isSenior : Bool
  targetAPY : Nat
  totalInvoiceValue : Nat
  totalInvoiceDiscountedValue : Nat
  invoiceIds : List Nat
  containsInvoice : Nat → Bool
  allocations : Nat → Option InvoiceAllocation
  totalYieldDistributed : Nat
  lastDistributionTime : Nat
  epochCounter : Nat
  minDeposit : Nat
  depositCap : Nat
  depositsEnabled : Bool
  withdrawalsEnabled : Bool
  totalDefaultLoss : Nat
  cumulativeYield : Nat

/-- State of a freshly deployed TrancheVault (constructor defaults from the
source: minDeposit 100 * 10^6, no cap, deposits and withdrawals enabled). -/
def initialVault (decimals now : Nat) (isSenior : Bool) (targetAPY : Nat) : VaultState where
  totalAssets := 0
  totalSupply := 0
  balanceOf := fun _ => 0
  decimals := decimals
  isSenior := isSenior
  targetAPY := targetAPY
  totalInvoiceValue := 0
  totalInvoiceDiscountedValue := 0
  invoiceIds := []
  containsInvoice := fun _ => false
  allocations := fun _ => none
  totalYieldDistributed := 0
  lastDistributionTime := now
  epochCounter := 0
  minDeposit := 100 * 10 ^ 6
  depositCap := 0
  depositsEnabled := true
  withdrawalsEnabled := true
  totalDefaultLoss := 0
  cumulativeYield := 0

/-- ERC4626._convertToAssets with floor rounding (OpenZeppelin v5):
`shares * (totalAssets + 1) / (totalSupply + 10 ^ _decimalsOffset)` with a
zero offset. -/
def VaultState.convertToAssets (v : VaultState) (shares : Nat) : Nat :=
  shares * (v.totalAssets + 1) / (v.totalSupply + 1)

/-- ERC4626.previewDeposit with floor rounding (OpenZeppelin v5). -/
def VaultState.previewDeposit (v : VaultState) (assets : Nat) : Nat :=
  assets * (v.totalSupply + 1) / (v.totalAssets + 1)

/-- TrancheVault.getSharePrice:
`totalSupply() > 0 ? convertToAssets(10 ** decimals()) : 10 ** decimals()`. -/
def VaultState.getSharePrice (v : VaultState) : Nat :=
  if 0 < v.totalSupply then v.convertToAssets (10 ^ v.decimals) else 10 ^ v.decimals

/-- TrancheVault.deposit: the override checks (deposits enabled, KYC on the
receiver, minimum deposit, optional cap) in source order, then the ERC-4626
deposit (transfer assets in, mint `previewDeposit assets` shares to the
receiver).  Returns the minted shares. -/
def deposit (g : KYCGateState) (now assets receiver : Nat) (v : VaultState) :
    Except String (VaultState × Nat) :=
  if v.depositsEnabled = false then Except.error "Deposits are currently disabled"
  else if g.isVerified now receiver = false then Except.error "Receiver not KYC verified"
  else if assets < v.minDeposit then Except.error "Below minimum deposit"
  else if 0 < v.depositCap ∧ v.depositCap < v.totalAssets + assets then
    Except.error "Deposit exceeds cap"
  else
    let shares := v.previewDeposit assets
    Except.ok
      ({ v with
          totalAssets := v.totalAssets + assets
          totalSupply := v.totalSupply + shares
          balanceOf := fun a => if a = receiver then v.balanceOf receiver + shares
                                else v.balanceOf a }, shares)

/-- TrancheVault.addInvoice.  Note that the source body records the
allocation and raises the vault totals but contains no call to
`InvoiceNFT.markAsFunded`; the registry is only read (through `getInvoice`),
never written, which is why this function takes the registry state as a
read-only argument and returns a new vault state only. -/
def addInvoice (now invoiceId : Nat) (rs : RegistryState) (v : VaultState) :
    Except String VaultState :=
  if v.containsInvoice invoiceId = true then Except.error "Invoice already in vault"
  else
    match rs.invoices invoiceId with
    | none => Except.error "Invoice does not exist"
    | some invoice =>
      if invoice.status = InvoiceStatus.VERIFIED then
        if now < invoice.maturityDate then
          Except.ok
            { v with
                invoiceIds := v.invoiceIds ++ [invoiceId]
                containsInvoice := fun i => if i = invoiceId then true
                                            else v.containsInvoice i
                totalInvoiceValue := v.totalInvoiceValue + invoice.faceValue
                totalInvoiceDiscountedValue :=
                  v.totalInvoiceDiscountedValue + invoice.discountedValue
                allocations := fun i =>
                  if i = invoiceId then
                    some { invoiceId := invoiceId, faceValue := invoice.faceValue
                           addedAt := now, isActive := true }
                  else v.allocations i }
        else Except.error "Invoice already matured"
      else Except.error "Invoice not verified"

/-- TrancheVault.removeInvoice.  Each vault total is decremented only under
its own `>=` guard; when a guard fails the total is silently left
unchanged.  Writing `isActive := false` into a missing allocation is a
no-op here, matching the write into the zero struct of a Solidity
mapping. -/
def removeInvoice (now invoiceId : Nat) (reason : String) (rs : RegistryState)
    (v : VaultState) : Except String VaultState :=
  if v.containsInvoice invoiceId = false then Except.error "Invoice not in vault"
  else
    match rs.invoices invoiceId with
    | none => Except.error "Invoice does not exist"
    | some invoice =>
      Except.ok
        { v with
            containsInvoice := fun i => if i = invoiceId then false
                                        else v.containsInvoice i
            allocations := fun i =>
              if i = invoiceId then
                (v.allocations i).map fun al => { al with isActive := false }
              else v.allocations i
            totalInvoiceValue :=
              if invoice.faceValue ≤ v.totalInvoiceValue then
                v.totalInvoiceValue - invoice.faceValue
              else v.totalInvoiceValue
            totalInvoiceDiscountedValue :=
              if invoice.discountedValue ≤ v.totalInvoiceDiscountedValue then
                v.totalInvoiceDiscountedValue - invoice.discountedValue
              else v.totalInvoiceDiscountedValue }

/-- TrancheVault.distributeYield: requires a positive amount, pulls the
amount of the underlying asset into the vault (raising `totalAssets`), and
advances the yield counters and epoch.  The ERC-20 transfer is assumed to
succeed (it reverts the whole call otherwise). -/
def distributeYield (now amount : Nat) (v : VaultState) : Except String VaultState :=
  if 0 < amount then
    Except.ok
      { v with
          totalAssets := v.totalAssets + amount
          totalYieldDistributed := v.totalYieldDistributed + amount
          cumulativeYield := v.cumulativeYield + amount
          lastDistributionTime := now
          epochCounter := v.epochCounter + 1 }
  else Except.error "Yield amount must be positive"

/-! ### Oracle monitor passes

The two pass functions of the oracle service iterate token ids 1..total;
the body of each iteration performs external calls (`getInvoice`, the data
source, an on-chain transaction) whose outcome depends on I/O, so the body
is abstracted as an action that either succeeds or throws with a message.
The control structure is the one of the source: a single try/catch wrapping
the whole for-loop, with "Invoice does not exist" errors swallowed in the
catch and every other caught error logged. -/

/-- The for-loop inside the shared try block: process ids in order and
abort at the first thrown error, which propagates to the enclosing catch.
Returns the successfully processed ids and the caught error, if any. -/
def passLoop (act : Nat → Except String Unit) : List Nat → List Nat × Option String
  | [] => ([], none)
  | id :: rest =>
    match act id with
    | Except.ok _ =>
      let (p, e) := passLoop act rest
      (id :: p, e)
    | Except.error e => ([], some e)

/-- Result of one monitor pass: which instruments were fully processed and
which error, if any, was logged by the catch block. -/
structure PassResult where
  processed : List Nat
  loggedError : Option String
deriving DecidableEq, Repr

/-- Filter of the catch block:
`if (!error.message.includes('Invoice does not exist')) logger.error(...)`. -/
def catchFilter (e : Option String) : Option String :=
  match e with
  | none => none
  | some msg =>
    if 1 < (msg.splitOn "Invoice does not exist").length then none else some msg

/-- OracleService.verifyPendingInvoices: one verification pass over token
ids 1..total. -/
def verifyPendingInvoices (act : Nat → Except String Unit) (total : Nat) : PassResult :=
  { processed := (passLoop act (List.range' 1 total)).1
    loggedError := catchFilter (passLoop act (List.range' 1 total)).2 }

/-- OracleService.checkPaymentStatuses: one payment/default pass over token
ids 1..total. -/
def checkPaymentStatuses (act : Nat → Except String Unit) (total : Nat) : PassResult :=
  { processed := (passLoop act (List.range' 1 total)).1
    loggedError := catchFilter (passLoop act (List.range' 1 total)).2 }

/-- The loop processes exactly the longest all-successful leading run of
ids: everything after the first throwing instrument is skipped. -/
lemma passLoop_processed (act : Nat → Except String Unit) :
    ∀ ids : List Nat, (passLoop act ids).1 = ids.takeWhile fun id => (act id).toBool := by
  intro ids
  induction ids with
  | nil => rfl
  | cons id rest ih =>
    by_cases h : (act id).toBool = true
    · have hok : ∃ u, act id = Except.ok u := by
        cases hact : act id with
        | ok u => exact ⟨u, rfl⟩
        | error e => rw [hact] at h; simp [Except.toBool, Except.isOk] at h
      obtain ⟨u, hu⟩ := hok
      simp [passLoop, hu, List.takeWhile, Except.toBool, Except.isOk, h, ih]
    · have herr : ∃ e, act id = Except.error e := by
        cases hact : act id with
        | ok u => rw [hact] at h; simp [Except.toBool, Except.isOk] at h
        | error e => exact ⟨e, rfl⟩
      obtain ⟨e, he⟩ := herr
      simp [passLoop, he, List.takeWhile, Except.toBool, Except.isOk, h]

/-! ### Payment sequences -/

/-- A sequence of `recordPayment` calls on one invoice, stopping at the
first revert. -/
def payAll (tid : Nat) (amounts : List Nat) (s : RegistryState) :
    Except String RegistryState :=
  match amounts with
  | [] => Except.ok s
  | a :: rest => (recordPayment tid a s).bind (payAll tid rest)

/-- Success of `recordPayment` under its preconditions, with the resulting
state spelled out. -/
lemma recordPayment_ok_of {tid a : Nat} {s : RegistryState} {inv : Invoice}
    (hinv : s.invoices tid = some inv) (ha : 0 < a)
    (hstat : inv.status = InvoiceStatus.FUNDED ∨ inv.status = InvoiceStatus.PARTIAL_PAID)
    (hle : inv.paidAmount + a ≤ inv.faceValue) :
    recordPayment tid a s = Except.ok
      { s with
          invoices := fun k =>
            if k = tid then
              some { inv with
                      paidAmount := inv.paidAmount + a
                      status :=
                        if inv.faceValue ≤ inv.paidAmount + a then InvoiceStatus.PAID
                        else InvoiceStatus.PARTIAL_PAID }
            else s.invoices k
          totalValuePaid := s.totalValuePaid + a } := by
  simp only [recordPayment, hinv]
  rw [if_pos ha, if_pos hstat, if_pos hle]

/-- Positive partial payments that sum (with the already-paid amount)
exactly to the face value all succeed and leave the invoice PAID. -/
lemma payAll_reaches_paid (tid : Nat) :
    ∀ (amounts : List Nat) (s : RegistryState) (inv : Invoice),
      s.invoices tid = some inv → amounts ≠ [] → (∀ x ∈ amounts, 0 < x) →
      (inv.status = InvoiceStatus.FUNDED ∨ inv.status = InvoiceStatus.PARTIAL_PAID) →
      inv.paidAmount + amounts.sum = inv.faceValue →
      ∃ s', payAll tid amounts s = Except.ok s' ∧
        (s'.invoices tid).map Invoice.status = some InvoiceStatus.PAID := by
  intro amounts
  induction amounts with
  | nil => intro s inv _ hne _ _ _; exact absurd rfl hne
  | cons a rest ih =>
    intro s inv hinv _ hpos hstat hsum
    have ha : 0 < a := hpos a (by simp)
    have hle : inv.paidAmount + a ≤ inv.faceValue := by
      simp only [List.sum_cons] at hsum; omega
    have hstep := recordPayment_ok_of hinv ha hstat hle
    cases rest with
    | nil =>
      have hfull : inv.faceValue ≤ inv.paidAmount + a := by
        simp only [List.sum_cons, List.sum_nil] at hsum; omega
      refine ⟨{ s with
          invoices := fun k =>
            if k = tid then
              some { inv with
                      paidAmount := inv.paidAmount + a
                      status :=
                        if inv.faceValue ≤ inv.paidAmount + a then InvoiceStatus.PAID
                        else InvoiceStatus.PARTIAL_PAID }
            else s.invoices k
          totalValuePaid := s.totalValuePaid + a }, ?_, ?_⟩
      · simp [payAll, hstep, Except.bind]
      · simp [if_pos hfull]
    | cons b rest2 =>
      have hlt : inv.paidAmount + a < inv.faceValue := by
        have hb : 0 < b := hpos b (by simp)
        simp only [List.sum_cons] at hsum; omega
      have hnot : ¬ inv.faceValue ≤ inv.paidAmount + a := by omega
      have hstep2 : recordPayment tid a s = Except.ok
          { s with
              invoices := fun k =>
                if k = tid then
                  some { inv with
                          paidAmount := inv.paidAmount + a
                          status := InvoiceStatus.PARTIAL_PAID }
                else s.invoices k
              totalValuePaid := s.totalValuePaid + a } := by
        simpa [hnot] using hstep
      obtain ⟨s', hs', hstatus⟩ := ih
        { s with
            invoices := fun k =>
              if k = tid then
                some { inv with
                        paidAmount := inv.paidAmount + a
                        status := InvoiceStatus.PARTIAL_PAID }
              else s.invoices k
            totalValuePaid := s.totalValuePaid + a }
        { inv with paidAmount := inv.paidAmount + a, status := InvoiceStatus.PARTIAL_PAID }
        (by simp) (by simp) (fun x hx => hpos x (by simp [hx]))
        (Or.inr rfl)
        (by simp only [List.sum_cons] at hsum; simp; omega)
      refine ⟨s', ?_, hstatus⟩
      rw [payAll, hstep2]
      exact hs'

/-! ### Concrete scenarios

Concrete states built by running the operations from the deployed-contract
states, used below as counterexamples and witnesses.  The extraction
matches are total: each falls back to the previous state, and the theorems
below check that the operation in fact succeeded. -/

/-- Registry after minting invoice 1 (faceValue 100000, rate 500bp,
maturity 1000, evidence hash 900) at time 0. -/
def regAfterC1Mint : RegistryState :=
  match mintInvoice 0 77 100000 1000 5 900 "Acme Corp" 500 initialRegistry with
  | Except.ok (s, _) => s
  | Except.error _ => initialRegistry

/-- Registry after the oracle verifies invoice 1 at time 10. -/
def regAfterC1Verify : RegistryState :=
  match verifyInvoice 10 1 regAfterC1Mint with
  | Except.ok s => s
  | Except.error _ => regAfterC1Mint

/-- The verified invoice 1 as stored in `regAfterC1Verify`. -/
def c1Inv : Invoice where
  tokenId := 1
  faceValue := 100000
  discountedValue := 95000
  maturityDate := 1000
  debtor := 5
  invoiceHash := 900
  status := InvoiceStatus.VERIFIED
  paidAmount := 0
  issuedAt := 0
  issuer := 77
  debtorName := "Acme Corp"
  discountRate := 500

/-- Vault after the owner adds verified invoice 1 at time 20. -/
def vaultAfterC1Add : VaultState :=
  match addInvoice 20 1 regAfterC1Verify (initialVault 6 0 true 800) with
  | Except.ok v => v
  | Except.error _ => initialVault 6 0 true 800

/-- Registry after minting invoice 1 (faceValue 1000, maturity 200) at
time 100; the invoice is PENDING. -/
def regAfterC3Mint : RegistryState :=
  match mintInvoice 100 7 1000 200 5 902 "Debtor LLC" 500 initialRegistry with
  | Except.ok (s, _) => s
  | Except.error _ => initialRegistry

/-- Registry after defaulting the still-PENDING invoice 1 at time 300. -/
def regAfterC3Default : RegistryState :=
  match markAsDefaulted 300 1 regAfterC3Mint with
  | Except.ok s => s
  | Except.error _ => regAfterC3Mint

/-- The PENDING invoice 1 as stored in `regAfterC3Mint`. -/
def c3Inv : Invoice where
  tokenId := 1
  faceValue := 1000
  discountedValue := 950
  maturityDate := 200
  debtor := 5
  invoiceHash := 902
  status := InvoiceStatus.PENDING
  paidAmount := 0
  issuedAt := 100
  issuer := 7
  debtorName := "Debtor LLC"
  discountRate := 500

/-- Registry after minting a dust invoice (faceValue 1, rate 5000bp). -/
def regAfterC4Mint : RegistryState :=
  match mintInvoice 0 7 1 100 5 903 "Dust" 5000 initialRegistry with
  | Except.ok (s, _) => s
  | Except.error _ => initialRegistry

/-- Gate with the operator switch `kycRequired` turned off. -/
def gateNoKYC : KYCGateState := setKYCRequired false initialGate

/-- Freshly deployed senior vault over a 6-decimals asset. -/
def c5VaultStart : VaultState := initialVault 6 0 true 800

/-- Vault after a single deposit of 10^8 asset units (mints 10^8 shares at
the 1:1 baseline). -/
def c5VaultAfterDeposit : VaultState :=
  match deposit gateNoKYC 0 (10 ^ 8) 42 c5VaultStart with
  | Except.ok (v, _) => v
  | Except.error _ => c5VaultStart

/-- Vault after a yield distribution of 1 unit into the 10^8-share pool. -/
def c5VaultAfterYield : VaultState :=
  match distributeYield 50 1 c5VaultAfterDeposit with
  | Except.ok v => v
  | Except.error _ => c5VaultAfterDeposit

/-- Vault after a yield distribution of 1000 units into the 10^8-share
pool (large enough to move the rounded share price). -/
def c5WitnessAfter : VaultState :=
  match distributeYield 50 1000 c5VaultAfterDeposit with
  | Except.ok v => v
  | Except.error _ => c5VaultAfterDeposit

/-- Registry after minting invoice 1 (faceValue 100000, rate 500bp,
maturity 1000, evidence hash 904) at time 0. -/
def regC6Mint : RegistryState :=
  match mintInvoice 0 77 100000 1000 5 904 "Acme Corp" 500 initialRegistry with
  | Except.ok (s, _) => s
  | Except.error _ => initialRegistry

/-- Registry after verifying invoice 1 at time 10. -/
def regC6Verified : RegistryState :=
  match verifyInvoice 10 1 regC6Mint with
  | Except.ok s => s
  | Except.error _ => regC6Mint

/-- Registry after marking invoice 1 funded. -/
def regC6Funded : RegistryState :=
  match markAsFunded 1 regC6Verified with
  | Except.ok s => s
  | Except.error _ => regC6Verified

/-- Registry after paying invoice 1 in full. -/
def regC6Paid : RegistryState :=
  match recordPayment 1 100000 regC6Funded with
  | Except.ok s => s
  | Except.error _ => regC6Funded

/-- The FUNDED invoice 1 as stored in `regC6Funded`. -/
def c6Inv : Invoice where
  tokenId := 1
  faceValue := 100000
  discountedValue := 95000
  maturityDate := 1000
  debtor := 5
  invoiceHash := 904
  status := InvoiceStatus.FUNDED
  paidAmount := 0
  issuedAt := 0
  issuer := 77
  debtorName := "Acme Corp"
  discountRate := 500

/-- The fully PAID invoice 1 as stored in `regC6Paid`. -/
def c6PaidInv : Invoice := { c6Inv with status := InvoiceStatus.PAID, paidAmount := 100000 }

lemma regC6Funded_reachable : Reachable regC6Funded :=
  Relation.ReflTransGen.tail
    (Relation.ReflTransGen.tail
      (Relation.ReflTransGen.single
        (RegStep.mint 0 77 100000 1000 5 904 "Acme Corp" 500 initialRegistry regC6Mint 1 rfl))
      (RegStep.verify 10 1 regC6Mint regC6Verified rfl))
    (RegStep.fund 1 regC6Verified regC6Funded rfl)

lemma regC6Paid_reachable : Reachable regC6Paid :=
  Relation.ReflTransGen.tail regC6Funded_reachable
    (RegStep.pay 1 100000 regC6Funded regC6Paid rfl)

/-- Per-instrument monitor action that throws on instrument 2 only
(for example a transient RPC failure of one on-chain call). -/
def c2Act : Nat → Except String Unit := fun id =>
  if id = 2 then Except.error "RPC timeout" else Except.ok ()

/-- Vault whose tracked totals (5 and 3) are smaller than the face and
discounted values of the contained invoice 1. -/
def c10Vault : VaultState :=
  { c5VaultStart with
      containsInvoice := fun i => if i = 1 then true else false
      allocations := fun i =>
        if i = 1 then
          some { invoiceId := 1, faceValue := 100000, addedAt := 20, isActive := true }
        else none
      totalInvoiceValue := 5
      totalInvoiceDiscountedValue := 3 }

/-! ### Claim theorems -/

/-- Claim C1 (code-bug evidence).  Scenario A run on the code: invoice 1
(faceValue 100000, rate 500bp) is minted at t=0 and verified at t=10; the
vault then successfully adds it at t=20, recording the allocation — but the
body of `TrancheVault.addInvoice` contains no call to
`InvoiceNFT.markAsFunded`, so the registry is untouched and the invoice is
still VERIFIED, not FUNDED, after the allocation is created.  The final
conjunct shows `markAsFunded` itself would have succeeded on this state had
the vault called it (the VAULT_ROLE-gated call the source omits). -/
theorem c1_addInvoice_never_marks_funded :
    (mintInvoice 0 77 100000 1000 5 900 "Acme Corp" 500 initialRegistry).toBool = true ∧
    (verifyInvoice 10 1 regAfterC1Mint).toBool = true ∧
    (regAfterC1Verify.invoices 1).map Invoice.status = some InvoiceStatus.VERIFIED ∧
    (addInvoice 20 1 regAfterC1Verify (initialVault 6 0 true 800)).toBool = true ∧
    vaultAfterC1Add.containsInvoice 1 = true ∧
    vaultAfterC1Add.allocations 1 =
      some { invoiceId := 1, faceValue := 100000, addedAt := 20, isActive := true } ∧
    vaultAfterC1Add.totalInvoiceValue = 100000 ∧
    (regAfterC1Verify.invoices 1).map Invoice.status ≠ some InvoiceStatus.FUNDED ∧
    (markAsFunded 1 regAfterC1Verify).toBool = true := by
  decide

/-- Claim C2 counterexample.  A per-instrument action that succeeds on
instruments 1 and 3 but throws on instrument 2: in both monitor passes over
the three instruments, only instrument 1 is processed — the failure on
instrument 2 prevents instrument 3 from being processed in that pass, so
per-instrument error isolation does not hold. -/
theorem c2_per_instrument_isolation_cex :
    (c2Act 3).toBool = true ∧
    (verifyPendingInvoices c2Act 3).processed = [1] ∧
    3 ∉ (verifyPendingInvoices c2Act 3).processed ∧
    (checkPaymentStatuses c2Act 3).processed = [1] ∧
    3 ∉ (checkPaymentStatuses c2Act 3).processed := by
  decide

/-- Claim C2 (amended).  In both monitor passes the try/catch wraps the
whole for-loop, so a thrown per-instrument error aborts the remainder of
that pass: the processed instruments are exactly the longest all-successful
leading run of ids 1..total.  The error is caught at pass level (and logged
unless it is a not-found error), so the pass function itself returns
normally and later passes are unaffected. -/
theorem c2_pass_aborts_at_first_failure (act : Nat → Except String Unit) (total : Nat) :
    (verifyPendingInvoices act total).processed =
      (List.range' 1 total).takeWhile (fun id => (act id).toBool) ∧
    (checkPaymentStatuses act total).processed =
      (List.range' 1 total).takeWhile (fun id => (act id).toBool) :=
  ⟨passLoop_processed act (List.range' 1 total),
   passLoop_processed act (List.range' 1 total)⟩

/-- Claim C3 counterexample.  Invoice 1 is minted at t=100 with maturity
200 and never verified: it is still PENDING.  At t=300 `markAsDefaulted`
nevertheless succeeds and moves it straight to DEFAULTED, so Defaulted is
reachable from Pending, not only from Funded or PartiallyPaid. -/
theorem c3_pending_can_default_cex :
    (mintInvoice 100 7 1000 200 5 902 "Debtor LLC" 500 initialRegistry).toBool = true ∧
    (regAfterC3Mint.invoices 1).map Invoice.status = some InvoiceStatus.PENDING ∧
    (markAsDefaulted 300 1 regAfterC3Mint).toBool = true ∧
    (regAfterC3Default.invoices 1).map Invoice.status = some InvoiceStatus.DEFAULTED := by
  decide

/-- Claim C3 (amended).  `markAsDefaulted` succeeds on any existing invoice
once `now > maturityDate`, whenever its status is neither PAID nor
DEFAULTED — including PENDING and VERIFIED instruments — and moves it to
DEFAULTED.  (The checked-subtraction hypothesis `paidAmount ≤ faceValue`
holds in every reachable state.) -/
theorem c3_default_from_any_nonterminal (now tid : Nat) (s : RegistryState)
    (inv : Invoice) (hinv : s.invoices tid = some inv)
    (hm : inv.maturityDate < now) (hp : inv.status ≠ InvoiceStatus.PAID)
    (hd : inv.status ≠ InvoiceStatus.DEFAULTED)
    (hle : inv.paidAmount ≤ inv.faceValue) :
    ∃ s', markAsDefaulted now tid s = Except.ok s' ∧
      (s'.invoices tid).map Invoice.status = some InvoiceStatus.DEFAULTED := by
  simp only [markAsDefaulted, hinv]
  rw [if_pos hm, if_neg hp, if_neg hd, if_pos hle]
  refine ⟨_, rfl, ?_⟩
  simp

/-- Witness for the amended C3 theorem: applying it to the concrete
PENDING, matured invoice of the counterexample state. -/
theorem c3_default_from_any_nonterminal_witness :
    ∃ s', markAsDefaulted 300 1 regAfterC3Mint = Except.ok s' ∧
      (s'.invoices 1).map Invoice.status = some InvoiceStatus.DEFAULTED :=
  c3_default_from_any_nonterminal 300 1 regAfterC3Mint c3Inv
    (by decide) (by decide) (by decide) (by decide) (by decide)

/-- Claim C4 counterexample.  The submission faceValue=1, rate=5000bp is
valid (all six requires pass) and succeeds, yet
`discountedValue = 1 * 5000 / 10000 = 0`, violating the claimed
`0 < discountedValue`. -/
theorem c4_discounted_value_zero_cex :
    (mintInvoice 0 7 1 100 5 903 "Dust" 5000 initialRegistry).toBool = true ∧
    (regAfterC4Mint.invoices 1).map Invoice.discountedValue = some 0 := by
  decide

/-- Claim C4 (amended).  Every valid submission succeeds and computes
`discountedValue = faceValue * (10000 - rateBp) / 10000` with floor
division; the result satisfies `discountedValue ≤ faceValue`, and it is
positive exactly when `faceValue * (10000 - rateBp) ≥ 10000` (so dust face
values can yield a zero discounted value). -/
theorem c4_discount_formula (now sender fv md debtor h : Nat) (dn : String)
    (r : Nat) (s : RegistryState) (hmd : now < md) (hfv : 0 < fv)
    (hdeb : debtor ≠ 0) (hh : h ≠ 0) (hfresh : s.usedInvoiceHashes h = false)
    (hr : 0 < r) (hr2 : r ≤ 5000) (hov : fv * (10000 - r) < 2 ^ 256) :
    ∃ s', mintInvoice now sender fv md debtor h dn r s = Except.ok (s', s.nextTokenId) ∧
      ∃ inv, s'.invoices s.nextTokenId = some inv ∧
        inv.discountedValue = fv * (10000 - r) / 10000 ∧
        inv.discountedValue ≤ fv ∧
        (0 < inv.discountedValue ↔ 10000 ≤ fv * (10000 - r)) := by
  simp only [mintInvoice]
  rw [if_pos hmd, if_pos hfv, if_pos hdeb, if_pos hh, if_pos hfresh,
    if_pos ⟨hr, hr2⟩, if_pos hov]
  refine ⟨_, rfl, ?_⟩
  refine ⟨{ tokenId := s.nextTokenId, faceValue := fv,
            discountedValue := fv * (10000 - r) / 10000, maturityDate := md,
            debtor := debtor, invoiceHash := h, status := InvoiceStatus.PENDING,
            paidAmount := 0, issuedAt := now, issuer := sender, debtorName := dn,
            discountRate := r }, by simp, rfl, ?_, ?_⟩
  · calc fv * (10000 - r) / 10000 ≤ fv * 10000 / 10000 :=
          Nat.div_le_div_right (Nat.mul_le_mul_left fv (by omega))
      _ = fv := Nat.mul_div_cancel fv (by norm_num)
  · constructor
    · intro hpos
      by_contra hlt
      push_neg at hlt
      rw [Nat.div_eq_of_lt hlt] at hpos
      exact absurd hpos (lt_irrefl 0)
    · intro hge
      exact Nat.div_pos hge (by norm_num)

/-- Witness for the amended C4 theorem: the scenario-A submission
(faceValue 100000, rate 500bp) gives discountedValue 95000. -/
theorem c4_discount_formula_witness :
    ∃ s', mintInvoice 0 77 100000 1000 5 900 "Acme Corp" 500 initialRegistry =
        Except.ok (s', initialRegistry.nextTokenId) ∧
      ∃ inv, s'.invoices initialRegistry.nextTokenId = some inv ∧
        inv.discountedValue = 100000 * (10000 - 500) / 10000 ∧
        inv.discountedValue ≤ 100000 ∧
        (0 < inv.discountedValue ↔ 10000 ≤ 100000 * (10000 - 500)) :=
  c4_discount_formula 0 77 100000 1000 5 900 "Acme Corp" 500 initialRegistry
    (by decide) (by decide) (by decide) (by decide) (by decide) (by decide)
    (by decide) (by decide)

/-- Claim C5 counterexample.  A reachable fund state (one deposit of 10^8
units into the fresh vault, minting 10^8 shares) on which `distributeYield`
with the positive amount 1 succeeds, raises `totalAssets`, yet leaves
`getSharePrice()` exactly unchanged at 10^6 because of floor division: the
share price does not strictly increase. -/
theorem c5_share_price_not_strict_cex :
    (deposit gateNoKYC 0 (10 ^ 8) 42 c5VaultStart).toBool = true ∧
    c5VaultAfterDeposit.totalSupply = 10 ^ 8 ∧
    c5VaultAfterDeposit.totalAssets = 10 ^ 8 ∧
    (distributeYield 50 1 c5VaultAfterDeposit).toBool = true ∧
    c5VaultAfterYield.totalAssets = 10 ^ 8 + 1 ∧
    c5VaultAfterYield.totalSupply = c5VaultAfterDeposit.totalSupply ∧
    c5VaultAfterDeposit.getSharePrice = 10 ^ 6 ∧
    c5VaultAfterYield.getSharePrice = c5VaultAfterDeposit.getSharePrice := by
  decide

/-- Claim C5 (amended).  A successful `distributeYield` never decreases
`getSharePrice()`, and strictly increases it whenever shares are
outstanding and the amount is large enough for the floor division to move:
`totalSupply + 1 ≤ amount * 10 ^ decimals`.  Smaller positive amounts (or a
zero supply, where the price is the fixed baseline) can leave the rounded
price unchanged. -/
theorem c5_share_price_monotone (now amount : Nat) (v v' : VaultState)
    (hok : distributeYield now amount v = Except.ok v') :
    v.getSharePrice ≤ v'.getSharePrice ∧
    (0 < v.totalSupply → v.totalSupply + 1 ≤ amount * 10 ^ v.decimals →
      v.getSharePrice < v'.getSharePrice) := by
  have hshape : 0 < amount ∧ v' = { v with
      totalAssets := v.totalAssets + amount
      totalYieldDistributed := v.totalYieldDistributed + amount
      cumulativeYield := v.cumulativeYield + amount
      lastDistributionTime := now
      epochCounter := v.epochCounter + 1 } := by
    unfold distributeYield at hok
    split at hok
    · exact ⟨by assumption, (Except.ok.injEq .. ▸ hok).symm⟩
    · exact Except.noConfusion hok
  obtain ⟨hamt, hv'⟩ := hshape
  subst hv'
  by_cases hS : 0 < v.totalSupply
  · constructor
    · simp only [VaultState.getSharePrice, VaultState.convertToAssets, if_pos hS]
      exact Nat.div_le_div_right (Nat.mul_le_mul (Nat.le_refl _) (by omega))
    · intro _ hbig
      simp only [VaultState.getSharePrice, VaultState.convertToAssets, if_pos hS]
      have hmpos : 0 < v.totalSupply + 1 := by omega
      have h1 : 10 ^ v.decimals * (v.totalAssets + 1) / (v.totalSupply + 1) *
          (v.totalSupply + 1) ≤ 10 ^ v.decimals * (v.totalAssets + 1) :=
        Nat.div_mul_le_self _ _
      have hkey : 10 ^ v.decimals * (v.totalAssets + 1) / (v.totalSupply + 1) + 1 ≤
          10 ^ v.decimals * (v.totalAssets + amount + 1) / (v.totalSupply + 1) := by
        rw [Nat.le_div_iff_mul_le hmpos]
        calc (10 ^ v.decimals * (v.totalAssets + 1) / (v.totalSupply + 1) + 1) *
              (v.totalSupply + 1)
            = 10 ^ v.decimals * (v.totalAssets + 1) / (v.totalSupply + 1) *
                (v.totalSupply + 1) + (v.totalSupply + 1) := by ring
          _ ≤ 10 ^ v.decimals * (v.totalAssets + 1) + (v.totalSupply + 1) := by omega
          _ ≤ 10 ^ v.decimals * (v.totalAssets + 1) + amount * 10 ^ v.decimals := by omega
          _ = 10 ^ v.decimals * (v.totalAssets + amount + 1) := by ring
      omega
  · have hS0 : v.totalSupply = 0 := by omega
    constructor
    · simp [VaultState.getSharePrice, hS0]
    · intro h0
      exact absurd h0 hS

/-- Witness for the amended C5 theorem: a yield of 1000 units into the
10^8-share pool moves the share price strictly (10^6 to 10^6 + 9). -/
theorem c5_share_price_monotone_witness :
    c5VaultAfterDeposit.getSharePrice < c5WitnessAfter.getSharePrice :=
  (c5_share_price_monotone 50 1000 c5VaultAfterDeposit c5WitnessAfter rfl).2
    (by decide) (by decide)

/-- Claim C6: payment conservation.  For an existing invoice: a payment
that would push `paidAmount` past `faceValue` is rejected (not clamped);
every successful payment leaves `paidAmount ≤ faceValue`; and a nonempty
run of positive payments summing exactly to the face value all succeed and
leave the invoice PAID. -/
theorem c6_payment_conservation (tid a : Nat) (amounts : List Nat)
    (s s' : RegistryState) (inv inv' : Invoice)
    (hinv : s.invoices tid = some inv) :
    (inv.faceValue < inv.paidAmount + a → (recordPayment tid a s).toBool = false) ∧
    (recordPayment tid a s = Except.ok s' → s'.invoices tid = some inv' →
      inv'.paidAmount ≤ inv'.faceValue) ∧
    (amounts ≠ [] → (∀ x ∈ amounts, 0 < x) →
      (inv.status = InvoiceStatus.FUNDED ∨ inv.status = InvoiceStatus.PARTIAL_PAID) →
      inv.paidAmount + amounts.sum = inv.faceValue →
      ∃ s2, payAll tid amounts s = Except.ok s2 ∧
        (s2.invoices tid).map Invoice.status = some InvoiceStatus.PAID) := by
  refine ⟨?_, ?_, ?_⟩
  · intro hgt
    simp only [recordPayment, hinv]
    split
    · split
      · split
        · rename_i hle
          omega
        · rfl
      · rfl
    · rfl
  · intro hok hinv'
    obtain ⟨inv0, hinv0, _, _, hle0, hs'⟩ := recordPayment_ok_shape hok
    subst hs'
    have h3 : ({ inv0 with
        paidAmount := inv0.paidAmount + a
        status := if inv0.faceValue ≤ inv0.paidAmount + a then InvoiceStatus.PAID
                  else InvoiceStatus.PARTIAL_PAID } : Invoice) = inv' := by
      simpa using hinv'
    rw [← h3]
    simpa using hle0
  · intro hne hpos hstat hsum
    exact payAll_reaches_paid tid amounts s inv hinv hne hpos hstat hsum

/-- Witness for C6 on the funded scenario-A invoice: the overpayment
100001 is rejected, while the partial payments 40000 and 60000 both
succeed and leave the invoice PAID. -/
theorem c6_payment_conservation_witness :
    (recordPayment 1 100001 regC6Funded).toBool = false ∧
    ∃ s2, payAll 1 [40000, 60000] regC6Funded = Except.ok s2 ∧
      (s2.invoices 1).map Invoice.status = some InvoiceStatus.PAID := by
  have h := c6_payment_conservation 1 100001 [40000, 60000] regC6Funded regC6Funded
    c6Inv c6Inv (by decide)
  exact ⟨h.1 (by decide),
    h.2.2 (by decide) (by decide) (by decide) (by decide)⟩

/-- Claim C7: default exclusivity.  In every reachable registry state,
`markAsDefaulted` fails on an invoice whose `paidAmount` equals its
`faceValue` (by the reachability invariant such an invoice is PAID), and
fails whenever `now ≤ maturityDate`. -/
theorem c7_default_exclusivity (now tid : Nat) (s : RegistryState) (inv : Invoice)
    (hreach : Reachable s) (hinv : s.invoices tid = some inv) :
    (inv.paidAmount = inv.faceValue → (markAsDefaulted now tid s).toBool = false) ∧
    (now ≤ inv.maturityDate → (markAsDefaulted now tid s).toBool = false) := by
  have hI := reachable_regInv hreach tid inv hinv
  constructor
  · intro hfull
    have hpaid : inv.status = InvoiceStatus.PAID := hI.2.2.mpr hfull
    simp only [markAsDefaulted, hinv]
    split <;> simp_all [Except.toBool, Except.isOk]
  · intro hm
    have hnot : ¬ inv.maturityDate < now := by omega
    simp only [markAsDefaulted, hinv]
    rw [if_neg hnot]
    rfl

/-- Witness for C7 on the fully paid scenario invoice: even far past
maturity, `markAsDefaulted` fails on the PAID invoice. -/
theorem c7_default_exclusivity_witness :
    (markAsDefaulted 2000 1 regC6Paid).toBool = false := by
  have h := c7_default_exclusivity 2000 1 regC6Paid c6PaidInv
    regC6Paid_reachable (by decide)
  exact h.1 (by decide)

/-- Claim C8: evidence-hash uniqueness.  After one successful mint with
hash `h`, every later mint with the same hash fails, whatever further
operations have run and whatever state the first invoice has reached: the
hash is marked used at mint time and no operation ever clears it. -/
theorem c8_evidence_hash_unique
    (now sender fv md debtor h : Nat) (dn : String) (r : Nat)
    (s s1 s2 : RegistryState) (tid : Nat)
    (hok : mintInvoice now sender fv md debtor h dn r s = Except.ok (s1, tid))
    (hsteps : Relation.ReflTransGen RegStep s1 s2)
    (now2 sender2 fv2 md2 debtor2 : Nat) (dn2 : String) (r2 : Nat) :
    (mintInvoice now2 sender2 fv2 md2 debtor2 h dn2 r2 s2).toBool = false := by
  have h1 : s1.usedInvoiceHashes h = true := by
    obtain ⟨_, _, _, _, _, _, _, _, hs1⟩ := mintInvoice_ok_shape hok
    subst hs1
    simp
  have h2 : s2.usedInvoiceHashes h = true := steps_hash_mono hsteps h1
  simp only [mintInvoice]
  split
  · split
    · split
      · split
        · split
          · rename_i hfresh
            rw [h2] at hfresh
            exact Bool.noConfusion hfresh
          · rfl
        · rfl
      · rfl
    · rfl
  · rfl

/-- Witness for C8: after minting with hash 900 and then verifying the
invoice, a second submission with hash 900 fails. -/
theorem c8_evidence_hash_unique_witness :
    (mintInvoice 500 8 777 2000 6 900 "Other Corp" 100 regAfterC1Verify).toBool = false :=
  c8_evidence_hash_unique 0 77 100000 1000 5 900 "Acme Corp" 500
    initialRegistry regAfterC1Mint regAfterC1Verify 1 rfl
    (Relation.ReflTransGen.single (RegStep.verify 10 1 regAfterC1Mint regAfterC1Verify rfl))
    500 8 777 2000 6 "Other Corp" 100

/-- Claim C9: when the gate's `kycRequired` flag is false, `isVerified`
returns true for every address at every time — whatever its stored record
says (never verified, expired, or revoked) — and consequently the vault's
deposit can never fail with the KYC revert. -/
theorem c9_kyc_bypass (g : KYCGateState) (now user now2 assets receiver : Nat)
    (v : VaultState) (hreq : g.kycRequired = false) :
    g.isVerified now user = true ∧
    deposit g now2 assets receiver v ≠ Except.error "Receiver not KYC verified" := by
  have hver : ∀ t u, g.isVerified t u = true := fun t u => by
    simp [KYCGateState.isVerified, hreq]
  refine ⟨hver now user, ?_⟩
  simp only [deposit]
  split
  · intro hc
    injection hc with hc2
    revert hc2
    decide
  · split
    · rename_i htest
      rw [hver] at htest
      exact Bool.noConfusion htest
    · split
      · intro hc
        injection hc with hc2
        revert hc2
        decide
      · split
        · intro hc
          injection hc with hc2
          revert hc2
          decide
        · intro hc
          exact Except.noConfusion hc

/-- Witness for C9: with the switch off, the never-verified address 99
passes `isVerified` and its deposit cannot fail with the KYC revert. -/
theorem c9_kyc_bypass_witness :
    gateNoKYC.isVerified 0 99 = true ∧
    deposit gateNoKYC 0 (10 ^ 8) 99 c5VaultStart ≠
      Except.error "Receiver not KYC verified" :=
  c9_kyc_bypass gateNoKYC 0 99 0 (10 ^ 8) 99 c5VaultStart rfl

/-- Claim C10: `removeInvoice` on a contained invoice always succeeds
regardless of how small the tracked totals are; each total is decremented
only under its own `>=` guard and otherwise silently left unchanged, so the
totals never underflow (they never increase) but can be left stale. -/
theorem c10_remove_invoice_guarded_totals (now tid : Nat) (reason : String)
    (rs : RegistryState) (v : VaultState) (inv : Invoice)
    (hc : v.containsInvoice tid = true) (hinv : rs.invoices tid = some inv) :
    ∃ v', removeInvoice now tid reason rs v = Except.ok v' ∧
      v'.totalInvoiceValue =
        (if inv.faceValue ≤ v.totalInvoiceValue then
          v.totalInvoiceValue - inv.faceValue
         else v.totalInvoiceValue) ∧
      v'.totalInvoiceDiscountedValue =
        (if inv.discountedValue ≤ v.totalInvoiceDiscountedValue then
          v.totalInvoiceDiscountedValue - inv.discountedValue
         else v.totalInvoiceDiscountedValue) ∧
      v'.totalInvoiceValue ≤ v.totalInvoiceValue ∧
      v'.totalInvoiceDiscountedValue ≤ v.totalInvoiceDiscountedValue ∧
      v'.containsInvoice tid = false := by
  simp only [removeInvoice, hinv, hc]
  refine ⟨_, rfl, rfl, rfl, ?_, ?_, by simp⟩
  · show (if inv.faceValue ≤ v.totalInvoiceValue then
        v.totalInvoiceValue - inv.faceValue else v.totalInvoiceValue) ≤ v.totalInvoiceValue
    split <;> omega
  · show (if inv.discountedValue ≤ v.totalInvoiceDiscountedValue then
        v.totalInvoiceDiscountedValue - inv.discountedValue
      else v.totalInvoiceDiscountedValue) ≤ v.totalInvoiceDiscountedValue
    split <;> omega

/-- Witness for C10: removing invoice 1 (faceValue 100000) from a vault
whose totals are only 5 and 3 succeeds and leaves both totals unchanged. -/
theorem c10_remove_invoice_guarded_totals_witness :
    ∃ v', removeInvoice 99 1 "invoice paid" regAfterC1Verify c10Vault = Except.ok v' ∧
      v'.totalInvoiceValue =
        (if c1Inv.faceValue ≤ c10Vault.totalInvoiceValue then
          c10Vault.totalInvoiceValue - c1Inv.faceValue
         else c10Vault.totalInvoiceValue) ∧
      v'.totalInvoiceDiscountedValue =
        (if c1Inv.discountedValue ≤ c10Vault.totalInvoiceDiscountedValue then
          c10Vault.totalInvoiceDiscountedValue - c1Inv.discountedValue
         else c10Vault.totalInvoiceDiscountedValue) ∧
      v'.totalInvoiceValue ≤ c10Vault.totalInvoiceValue ∧
      v'.totalInvoiceDiscountedValue ≤ c10Vault.totalInvoiceDiscountedValue ∧
      v'.containsInvoice 1 = false :=
  c10_remove_invoice_guarded_totals 99 1 "invoice paid" regAfterC1Verify c10Vault
    c1Inv (by decide) (by decide)

end MantleRWA
